import Mathlib

/-
Shallow embedding of the espn-qb-scraper repository (Python) in Lean 4.

Conventions of the embedding:
* Python dicts `{name: stats}` become association lists `List (String × Stats)`
  (Python dicts preserve insertion order, as association lists do).
* Python numbers (int / float) are modelled as exact rationals `ℚ`.
* Fallible library calls (HTTP requests, `response.json()`) are modelled by
  outcome parameters; a raised exception is an `Except.error` of the modelled
  body, and a `try/except` wrapper is an explicit match on that `Except`.
* The SQLite store is modelled by explicit table states (lists of rows plus
  AUTOINCREMENT sequence counters), with `INSERT OR REPLACE` given SQLite's
  documented semantics: delete every row that conflicts on a uniqueness
  constraint, then insert the new row (with a fresh rowid when the id column
  is not supplied).
-/

/-- Per-player statistics record, the fixed numeric field set of the
quarterback stats dicts built by `hybrid_scraper.py` (`get_demo_data`) and
stored in the `quarterback_stats` table. -/
structure Stats where
  team : String
  games_played : ℚ
  completions : ℚ
  attempts : ℚ
  completion_pct : ℚ
  yards : ℚ
  yards_per_attempt : ℚ
  touchdowns : ℚ
  interceptions : ℚ
  rating : ℚ
  sacked : ℚ
  fumbles : ℚ

/-- A mapping from player name to statistics, `Dict[str, Dict]` in the source. -/
abbrev QBMap := List (String × Stats)

/-- Model of Python's `dict.get(stat, 0)` on a stats dict restricted to its
numeric fields: returns the named numeric field, and the default `0` for any
other key. (The only non-numeric key of the source dicts, `team`, is carried
separately in the `Stats` structure; no caller in the embedded code reads it
through a numeric `.get`.) -/
def statGet (s : Stats) (key : String) : ℚ :=
  if key == ("games_played") then s.games_played
  else if key == ("completions") then s.completions
  else if key == ("attempts") then s.attempts
  else if key == ("completion_pct") then s.completion_pct
  else if key == ("yards") then s.yards
  else if key == ("yards_per_attempt") then s.yards_per_attempt
  else if key == ("touchdowns") then s.touchdowns
  else if key == ("interceptions") then s.interceptions
  else if key == ("rating") then s.rating
  else if key == ("sacked") then s.sacked
  else if key == ("fumbles") then s.fumbles
  else 0

/-- Demo entry for Patrick Mahomes from `HybridQBScraper.get_demo_data`. -/
def mahomesStats : Stats :=
  ⟨("KC"), 17, 362, 565, 64.1, 4183, 7.4, 31, 8, 105.2, 28, 3⟩

/-- Demo entry for Josh Allen from `HybridQBScraper.get_demo_data`. -/
def allenStats : Stats :=
  ⟨("BUF"), 17, 359, 565, 63.5, 4306, 7.6, 35, 14, 92.6, 24, 5⟩

/-- Demo entry for Justin Herbert from `HybridQBScraper.get_demo_data`. -/
def herbertStats : Stats :=
  ⟨("LAC"), 13, 313, 477, 65.6, 3104, 6.5, 20, 7, 93.2, 29, 4⟩

/-- Demo entry for Lamar Jackson from `HybridQBScraper.get_demo_data`. -/
def jacksonStats : Stats :=
  ⟨("BAL"), 16, 307, 457, 67.2, 3678, 8.0, 24, 7, 102.7, 19, 6⟩

/-- Demo entry for Joe Burrow from `HybridQBScraper.get_demo_data`. -/
def burrowStats : Stats :=
  ⟨("CIN"), 10, 244, 365, 66.8, 2309, 6.3, 15, 6, 91.0, 24, 2⟩

/-- Demo entry for Dak Prescott from `HybridQBScraper.get_demo_data`. -/
def prescottStats : Stats :=
  ⟨("DAL"), 17, 410, 590, 69.5, 4516, 7.7, 36, 9, 105.9, 39, 7⟩

/-- Demo entry for Jalen Hurts from `HybridQBScraper.get_demo_data`. -/
def hurtsStats : Stats :=
  ⟨("PHI"), 17, 352, 538, 65.4, 3858, 7.2, 23, 15, 89.1, 38, 8⟩

/-- Demo entry for Tua Tagovailoa from `HybridQBScraper.get_demo_data`. -/
def tagovailoaStats : Stats :=
  ⟨("MIA"), 17, 388, 560, 69.3, 4624, 8.3, 29, 14, 101.1, 34, 4⟩

/-- Demo entry for Kirk Cousins from `HybridQBScraper.get_demo_data`. -/
def cousinsStats : Stats :=
  ⟨("MIN"), 8, 216, 311, 69.5, 2331, 7.5, 18, 5, 103.8, 16, 2⟩

/-- Demo entry for Jared Goff from `HybridQBScraper.get_demo_data`. -/
def goffStats : Stats :=
  ⟨("DET"), 17, 407, 605, 67.3, 4575, 7.6, 30, 12, 97.9, 30, 5⟩

/-- The static demo dataset, `HybridQBScraper.get_demo_data`
(`src/hybrid_scraper.py`, lines 70-213): ten fixed quarterbacks. -/
def get_demo_data : QBMap :=
  [ (("Patrick Mahomes"), mahomesStats)
  , (("Josh Allen"), allenStats)
  , (("Justin Herbert"), herbertStats)
  , (("Lamar Jackson"), jacksonStats)
  , (("Joe Burrow"), burrowStats)
  , (("Dak Prescott"), prescottStats)
  , (("Jalen Hurts"), hurtsStats)
  , (("Tua Tagovailoa"), tagovailoaStats)
  , (("Kirk Cousins"), cousinsStats)
  , (("Jared Goff"), goffStats) ]

/-- Model of Python's `str.lower()` (the names handled here are ASCII). -/
def pyLower (s : String) : String :=
  String.mk (s.data.map Char.toLower)

/-- Model of Python's substring test `needle in hay`. -/
def isSubstring : List Char → List Char → Bool
  | needle, [] => needle.isEmpty
  | needle, c :: t => needle.isPrefixOf (c :: t) || isSubstring needle t

/-- `QuarterbackComparer._find_qb` (`src/compare.py`, lines 53-61): first
player whose lowercased name contains the lowercased search string, in
insertion order of the mapping. -/
def find_qb (qb_data : QBMap) (search_name : String) : Option Stats :=
  (qb_data.find? fun p => isSubstring (pyLower search_name).data (pyLower p.1).data).map
    fun p => p.2

/-- The per-stat comparison record built by `compare_stats` for one stat key. -/
structure StatComparison where
  qb1_value : ℚ
  qb2_value : ℚ
  winner : String
  difference : ℚ

/-- `QuarterbackComparer.stats_columns` (`src/compare.py`, lines 9-12). -/
def stats_columns : List String :=
  [ ("yards"), ("touchdowns"), ("interceptions"), ("completion_pct")
  , ("rating"), ("yards_per_attempt"), ("games_played") ]

/-- `QuarterbackComparer.compare_stats` (`src/compare.py`, lines 14-51).
`none` models the `{"error": ...}` return when a quarterback is not found.
Every key of `stats_columns` is present in every stats dict of this data
model, so the source's `stat in qb1_stats and stat in qb2_stats` membership
test always passes and the comparison covers all of `stats_columns`. -/
def compare_stats (qb_data : QBMap) (qb1_name qb2_name : String) :
    Option (List (String × StatComparison)) :=
  match find_qb qb_data qb1_name, find_qb qb_data qb2_name with
  | some qb1_stats, some qb2_stats =>
    some (stats_columns.map fun stat =>
      let val1 := statGet qb1_stats stat
      let val2 := statGet qb2_stats stat
      if val1 > val2 then (stat, ⟨val1, val2, qb1_name, val1 - val2⟩)
      else if val2 > val1 then (stat, ⟨val1, val2, qb2_name, val2 - val1⟩)
      else (stat, ⟨val1, val2, ("Tie"), 0⟩))
  | _, _ => none

/-- `QuarterbackComparer.get_top_qbs` (`src/compare.py`, lines 71-82):
stable sort of the mapping's items, descending by `item[1].get(stat, 0)`
(Python's `sorted(..., reverse=True)` keeps tied items in original order,
as a stable merge sort with the reflexive "may come first" relation does),
then the first `limit` items. -/
def get_top_qbs (qb_data : QBMap) (stat : String) (limit : ℕ) : QBMap :=
  if qb_data.isEmpty then []
  else
    (qb_data.mergeSort fun a b => decide (statGet b.2 stat ≤ statGet a.2 stat)).take limit

/-- Opaque payload of a decoded JSON API response; `_parse_api_stats` ignores it. -/
abbrev ApiData := ℕ

/-- Opaque payload of a fetched HTML page; `_parse_webpage` ignores it. -/
abbrev PageContent := ℕ

/-- Outcome of the single `session.get` + `response.json()` interaction in
`try_espn_api`: either the request raised (network error / timeout), or a
response arrived with some status code and a JSON body that decodes to
`some` data or raises on decoding (`none`). -/
inductive ApiOutcome where
  | exn : ApiOutcome
  | resp (status : ℕ) (json : Option ApiData) : ApiOutcome

/-- Outcome of one `session.get` in the URL loop of `try_web_scraping`. -/
inductive ScrapeOutcome where
  | exn : ScrapeOutcome
  | resp (status : ℕ) (content : PageContent) : ScrapeOutcome

/-- `HybridQBScraper._parse_api_stats` (`src/hybrid_scraper.py`, lines
238-244): a stub that returns the empty mapping for every input. -/
def parse_api_stats (_data : ApiData) : QBMap := []

/-- `HybridQBScraper._parse_webpage` (`src/hybrid_scraper.py`, lines
274-290): locates a table via candidate selectors but never fills
`qb_stats`, so it returns the empty mapping for every input. -/
def parse_webpage (_content : PageContent) : QBMap := []

/-- The `try:` block of `HybridQBScraper.try_espn_api` (`src/hybrid_scraper.py`,
lines 215-236). `Except.error` marks an exception escaping the block:
the request raising, or `response.json()` raising on status 200.
A non-200 status returns the empty mapping normally. -/
def try_espn_api_body : ApiOutcome → Except Unit QBMap
  | ApiOutcome.exn => Except.error ()
  | ApiOutcome.resp status json =>
    if status == 200 then
      match json with
      | none => Except.error ()
      | some d => Except.ok (parse_api_stats d)
    else Except.ok []

/-- `HybridQBScraper.try_espn_api` with its `except` handler: any exception
from the body is caught and converted into the empty mapping. -/
def try_espn_api (o : ApiOutcome) : QBMap :=
  match try_espn_api_body o with
  | Except.error _ => []
  | Except.ok m => m

/-- The `try:` block of `HybridQBScraper.try_web_scraping`
(`src/hybrid_scraper.py`, lines 246-272): iterate over the candidate URLs
(the list argument holds one outcome per attempted URL, three in the
source); a raised request aborts the block with an exception, a 200 response
returns the parse of its content, a non-200 response moves to the next URL,
and an exhausted loop returns the empty mapping. -/
def try_web_scraping_body : List ScrapeOutcome → Except Unit QBMap
  | [] => Except.ok []
  | o :: rest =>
    match o with
    | ScrapeOutcome.exn => Except.error ()
    | ScrapeOutcome.resp status content =>
      if status == 200 then Except.ok (parse_webpage content)
      else try_web_scraping_body rest

/-- `HybridQBScraper.try_web_scraping` with its `except` handler: any
exception from the body is caught and converted into the empty mapping. -/
def try_web_scraping (outs : List ScrapeOutcome) : QBMap :=
  match try_web_scraping_body outs with
  | Except.error _ => []
  | Except.ok m => m

/-- The API tier failed: the request raised, the status was not 200, or the
JSON body failed to decode. -/
def apiFailure : ApiOutcome → Prop
  | ApiOutcome.exn => True
  | ApiOutcome.resp status json => status ≠ 200 ∨ json = none

/-- The scrape tier failed: walking the URL outcomes, no 200 response is
reached before the loop either raises or runs out of URLs. -/
def scrapeFails : List ScrapeOutcome → Prop
  | [] => True
  | o :: rest =>
    match o with
    | ScrapeOutcome.exn => True
    | ScrapeOutcome.resp status _ => status ≠ 200 ∧ scrapeFails rest

/-- A row of the `quarterbacks` table. -/
structure QBRow where
  id : ℕ
  espn_id : String
  name : String
  team : String
  position : String
  created_at : ℕ
  updated_at : ℕ

/-- A row of the `quarterback_stats` table. -/
structure StatRow where
  id : ℕ
  qb_id : ℕ
  season : ℤ
  games_played : ℚ
  completions : ℚ
  attempts : ℚ
  completion_pct : ℚ
  yards : ℚ
  yards_per_attempt : ℚ
  touchdowns : ℚ
  interceptions : ℚ
  rating : ℚ
  sacked : ℚ
  fumbles : ℚ
  last_updated : ℕ

/-- The SQLite store: both tables plus their AUTOINCREMENT sequences (with
the AUTOINCREMENT keyword SQLite never reuses a rowid, so a strictly
increasing counter is the exact semantics). -/
structure DBState where
  qbs : List QBRow
  qb_seq : ℕ
  stats : List StatRow
  stat_seq : ℕ

/-- Fresh store created by `init_database`: empty tables, rowids from 1. -/
def initialDB : DBState := ⟨[], 1, [], 1⟩

/-- Model of `name.lower().replace(' ', '_')` used to build the demo espn id. -/
def pyNormalizeId (name : String) : String :=
  String.mk ((pyLower name).data.map fun c => if c == ' ' then '_' else c)

/-- SQLite `INSERT OR REPLACE INTO quarterbacks (espn_id, name, team,
position, updated_at) VALUES (...)`: the statement supplies no `id`, so the
inserted row receives the next AUTOINCREMENT rowid; any existing row with
the same UNIQUE `espn_id` is deleted first; `created_at` takes its
CURRENT_TIMESTAMP default. -/
def insertOrReplaceQB (db : DBState) (espn_id name team position : String)
    (now : ℕ) : DBState :=
  { db with
    qbs := (db.qbs.filter fun r => !(r.espn_id == espn_id)) ++
      [⟨db.qb_seq, espn_id, name, team, position, now, now⟩]
    qb_seq := db.qb_seq + 1 }

/-- `SELECT id FROM quarterbacks WHERE espn_id = ?` followed by
`fetchone()[0]`; after the preceding replace exactly one row matches, so the
`0` default of the model is never the value actually read. -/
def selectQBId (db : DBState) (espn_id : String) : ℕ :=
  ((db.qbs.find? fun r => r.espn_id == espn_id).map fun r => r.id).getD 0

/-- SQLite `INSERT OR REPLACE INTO quarterback_stats (qb_id, season, ...)
VALUES (...)`: no `id` supplied, so a fresh AUTOINCREMENT rowid; any
existing row with the same UNIQUE `(qb_id, season)` is deleted first. -/
def insertOrReplaceStat (db : DBState) (qb_id : ℕ) (season : ℤ) (s : Stats)
    (now : ℕ) : DBState :=
  { db with
    stats := (db.stats.filter fun r => !(r.qb_id == qb_id && r.season == season)) ++
      [⟨db.stat_seq, qb_id, season, s.games_played, s.completions, s.attempts,
        s.completion_pct, s.yards, s.yards_per_attempt, s.touchdowns,
        s.interceptions, s.rating, s.sacked, s.fumbles, now⟩]
    stat_seq := db.stat_seq + 1 }

/-- The loop body of `HybridQBScraper._save_to_database`
(`src/hybrid_scraper.py`, lines 326-358) for one `(name, stats)` item. -/
def save_qb (db : DBState) (now : ℕ) (season : ℤ) (name : String) (s : Stats) :
    DBState :=
  let eid := ("demo_") ++ pyNormalizeId name
  let db1 := insertOrReplaceQB db eid name s.team ("QB") now
  insertOrReplaceStat db1 (selectQBId db1 eid) season s now

/-- `HybridQBScraper._save_to_database` (`src/hybrid_scraper.py`, lines
318-361): upsert every item of the mapping, in order, with one shared
`current_time` and `season`. -/
def save_to_database (db : DBState) (qb_data : QBMap) (now : ℕ) (season : ℤ) :
    DBState :=
  qb_data.foldl (fun d p => save_qb d now season p.1 p.2) db

/-- `HybridQBScraper.update_database` (`src/hybrid_scraper.py`, lines 292-316).
The mappings returned by the `self.try_espn_api()` and
`self.try_web_scraping()` calls are passed in as `api_result` and
`scrape_result`, so the theorem statements can range over every outcome of
those tiers. Returns the updated store paired with the mapping the source
returns to its caller. -/
def update_database (db : DBState) (force_demo : Bool)
    (api_result scrape_result : QBMap) (now : ℕ) (season : ℤ) :
    DBState × QBMap :=
  let qb_data : QBMap :=
    if force_demo then []
    else if api_result.isEmpty then scrape_result else api_result
  let qb_data := if qb_data.isEmpty then get_demo_data else qb_data
  (save_to_database db qb_data now season, qb_data)

/-- True when the list of characters contains a decimal digit. -/
def hasDigit (l : List Char) : Bool := l.any Char.isDigit

/-- The cleaning step of `_extract_number`:
`''.join(c for c in text if c.isdigit() or c == '.')`. -/
def cleanChars (l : List Char) : List Char :=
  l.filter fun c => c.isDigit || c == '.'

/-- Value of a string of decimal digits read left to right. -/
def digitsVal (l : List Char) : ℕ :=
  l.foldl (fun n c => 10 * n + (c.toNat - ('0').toNat)) 0

/-- Model of Python's `float(cleaned)` on a string already restricted to
digit and decimal-point characters (the only strings `_extract_number`
passes to it): a single optional decimal point with at least one digit
around it yields the exact decimal value; an empty string, a lone point, or
more than one point raises `ValueError`, modelled as `none`. -/
def parseCleaned (l : List Char) : Option ℚ :=
  if l.any fun c => c == '.' then
    let ip := l.takeWhile fun c => !(c == '.')
    let fp := (l.dropWhile fun c => !(c == '.')).tail
    if fp.any fun c => c == '.' then none
    else if ip.isEmpty && fp.isEmpty then none
    else some ((digitsVal ip : ℚ) + (digitsVal fp : ℚ) / 10 ^ fp.length)
  else if l.isEmpty then none
  else some ((digitsVal l : ℚ))

/-- `ESPNQBScraper._extract_number` (`src/scraper.py`, lines 180-194).
The argument is the cell's text as produced by `cell.get_text(strip=True)`,
with `none` for a missing (falsy) cell. The `try/except ValueError` around
`float(cleaned)` is the `parseCleaned ... = none` fallback to `0`. -/
def extract_number : Option String → ℚ
  | none => 0
  | some text =>
    if text == ("") || text == ("-") then 0
    else
      let cl := cleanChars text.data
      if cl.isEmpty then 0
      else
        match parseCleaned cl with
        | some q => q
        | none => 0

/-- Result record of `calculate_efficiency_metrics`. -/
structure EfficiencyMetrics where
  completion_percentage : ℚ
  yards_per_attempt : ℚ
  td_int_ratio : ℚ
  yards_per_completion : ℚ

/-- `calculate_efficiency_metrics` (`src/utils.py`, lines 59-93): each ratio
is guarded by a positivity test on its divisor, with `0` otherwise (and the
touchdown count itself for `td_int_ratio` when there are no interceptions
but some touchdowns). -/
def calculate_efficiency_metrics (stats : Stats) : EfficiencyMetrics :=
  let attempts := statGet stats ("attempts")
  let completions := statGet stats ("completions")
  let yards := statGet stats ("yards")
  let touchdowns := statGet stats ("touchdowns")
  let interceptions := statGet stats ("interceptions")
  { completion_percentage := if attempts > 0 then completions / attempts * 100 else 0
    yards_per_attempt := if attempts > 0 then yards / attempts else 0
    td_int_ratio :=
      if interceptions > 0 then touchdowns / interceptions
      else if touchdowns > 0 then touchdowns else 0
    yards_per_completion := if completions > 0 then yards / completions else 0 }

/-- SQL `SELECT MAX(last_updated) FROM quarterback_stats`: `none` when the
table has no rows. -/
def maxTimestamp (rows : List ℤ) : Option ℤ :=
  rows.foldl
    (fun acc t =>
      match acc with
      | none => some t
      | some m => some (max m t)) none

/-- `DatabaseManager.needs_update` (`src/db_manager.py`, lines 14-36).
`store` is `none` when the database file does not exist, otherwise the list
of `last_updated` timestamps of the stats rows (in seconds); `now` is the
current time in seconds. The age of the newest row must exceed
`max_age_hours * 3600` seconds for an update to be needed. -/
def needs_update (store : Option (List ℤ)) (now : ℤ) (max_age_hours : ℤ) : Bool :=
  match store with
  | none => true
  | some rows =>
    match maxTimestamp rows with
    | none => true
    | some t => decide (now - t > max_age_hours * 3600)

/-- The head-to-head comparison of "Patrick Mahomes" against "Josh Allen"
over the static demo dataset. -/
def c1_comparison : Option (List (String × StatComparison)) :=
  compare_stats get_demo_data ("Patrick Mahomes") ("Josh Allen")

/-- One upsert of the Mahomes demo record into a fresh store. -/
def c4_once : DBState :=
  save_to_database initialDB [(("Patrick Mahomes"), mahomesStats)] 1000 2025

/-- The same upsert applied a second time, at a later timestamp. -/
def c4_twice : DBState :=
  save_to_database c4_once [(("Patrick Mahomes"), mahomesStats)] 2000 2025

/-- C3: calling refresh with force_demo=True skips the API and scrape tiers
and returns exactly the fixed static demo dataset, a mapping of size 10. -/
theorem c3_force_demo_returns_demo (db : DBState) (api_result scrape_result : QBMap)
    (now : ℕ) (season : ℤ) :
    (update_database db true api_result scrape_result now season).2 = get_demo_data ∧
    (update_database db true api_result scrape_result now season).2.length = 10 :=
  ⟨rfl, rfl⟩

/-- C2: for every value of force_demo and every outcome of the API and
scrape tiers, update_database returns a non-empty mapping, because any empty
intermediate result is replaced by the non-empty static demo dataset. -/
theorem c2_update_database_nonempty (db : DBState) (force_demo : Bool)
    (api_result scrape_result : QBMap) (now : ℕ) (season : ℤ) :
    (update_database db force_demo api_result scrape_result now season).2 ≠ [] := by
  have key : ∀ l : QBMap, (if l.isEmpty then get_demo_data else l) ≠ [] := by
    intro l
    split
    · simp [get_demo_data]
    · rename_i h
      intro hc
      rw [hc] at h
      simp at h
  simp only [update_database]
  exact key _

/-- C1 counterexample: over the static demo dataset the head-to-head
comparison of "Patrick Mahomes" (8 interceptions) against "Josh Allen"
(14 interceptions) reports Josh Allen, not Patrick Mahomes, as the winner of
the interceptions stat, because the winner is the larger value. -/
theorem c1_counterexample :
    ((c1_comparison.bind fun l => List.lookup ("interceptions") l).map
      StatComparison.winner) = some ("Josh Allen") ∧
    ("Josh Allen") ≠ ("Patrick Mahomes") := by
  refine ⟨rfl, ?_⟩
  decide

/-- C1 (amended): over the static demo dataset the head-to-head comparison
of "Patrick Mahomes" against "Josh Allen" reports Josh Allen as the winner
of the interceptions stat with difference 6, since per-stat winners are
chosen by simple numeric greater-than (8 versus 14). -/
theorem c1_amended_interceptions_winner :
    (c1_comparison.bind fun l => List.lookup ("interceptions") l) =
      some ⟨8, 14, ("Josh Allen"), 6⟩ := by
  have h : (c1_comparison.bind fun l => List.lookup ("interceptions") l) =
      some ⟨8, 14, ("Josh Allen"), (14 : ℚ) - 8⟩ := rfl
  rw [h]
  norm_num

/-- C4 exhibit: the store upsert is not idempotent. One upsert of a single
player into a fresh store leaves one row in each table; repeating the very
same (player, season, stats) upsert leaves the stats table with two rows:
the quarterbacks row is replaced under a fresh AUTOINCREMENT id (2), so the
old stats row (qb_id 1) no longer matches the UNIQUE (qb_id, season) key of
the new insert and survives as an orphan referencing a deleted player. -/
theorem c4_upsert_not_idempotent :
    c4_once.stats.length = 1 ∧ c4_twice.stats.length = 2 ∧
    c4_once.qbs.length = 1 ∧ c4_twice.qbs.length = 1 ∧
    (c4_twice.stats.map StatRow.qb_id) = [1, 2] ∧
    (c4_twice.qbs.map QBRow.id) = [2] :=
  ⟨rfl, rfl, rfl, rfl, rfl, rfl⟩

/-- C5: every failure of the remote source (request exception, non-200
status, JSON decode error on the API path, or an exhausted / aborted URL
loop on the scrape path) is caught inside the adapter and converted into the
empty mapping; whenever the try-block escapes with an exception the wrapped
function still returns normally with the empty mapping, so no such exception
reaches the caller. -/
theorem c5_adapter_absorbs_failures (o : ApiOutcome) (outs : List ScrapeOutcome) :
    (∀ e, try_espn_api_body o = Except.error e → try_espn_api o = []) ∧
    (∀ e, try_web_scraping_body outs = Except.error e → try_web_scraping outs = []) ∧
    (apiFailure o → try_espn_api o = []) ∧
    (scrapeFails outs → try_web_scraping outs = []) := by
  refine ⟨?_, ?_, ?_, ?_⟩
  · intro e h
    simp [try_espn_api, h]
  · intro e h
    simp [try_web_scraping, h]
  · intro hf
    cases o with
    | exn => rfl
    | resp status json =>
      by_cases hs : status = 200
      · subst hs
        rcases hf with h | h
        · exact absurd rfl h
        · subst h
          rfl
      · simp [try_espn_api, try_espn_api_body, hs]
  · induction outs with
    | nil =>
      intro _
      rfl
    | cons o rest ih =>
      intro hf
      cases o with
      | exn => rfl
      | resp status content =>
        have hf' : status ≠ 200 ∧ scrapeFails rest := hf
        have hb : try_web_scraping_body (ScrapeOutcome.resp status content :: rest) =
            try_web_scraping_body rest := by
          simp [try_web_scraping_body, hf'.1]
        have := ih hf'.2
        simp only [try_web_scraping, hb]
        simpa [try_web_scraping] using this

/-- C5 witness: a raised API request and a scrape pass whose first URL gets
a 403 and whose second raises both produce the empty mapping. -/
theorem c5_adapter_absorbs_failures_witness :
    try_espn_api ApiOutcome.exn = [] ∧
    try_web_scraping [ScrapeOutcome.resp 403 0, ScrapeOutcome.exn] = [] := by
  constructor
  · exact (c5_adapter_absorbs_failures ApiOutcome.exn []).2.2.1 trivial
  · exact (c5_adapter_absorbs_failures ApiOutcome.exn
      [ScrapeOutcome.resp 403 0, ScrapeOutcome.exn]).2.2.2 ⟨by decide, trivial⟩

/-- Helper: a cleaned string consisting only of decimal points is rejected
by the float parse. -/
theorem parseCleaned_dots (l : List Char) (hl : ∀ c ∈ l, c = '.') :
    parseCleaned l = none := by
  cases l with
  | nil => rfl
  | cons c t =>
    have hc : c = '.' := hl c (by simp)
    subst hc
    unfold parseCleaned
    rw [if_pos (by simp)]
    have hip : (('.' :: t).takeWhile fun c => !(c == '.')) = [] := by
      simp [List.takeWhile]
    have hfp : ((('.' :: t).dropWhile fun c => !(c == '.')).tail) = t := by
      simp [List.dropWhile]
    rw [hip, hfp]
    cases t with
    | nil => simp
    | cons d t' =>
      have hd : d = '.' := hl d (by simp)
      subst hd
      rw [if_pos (by simp)]

/-- Helper: cleaning a digit-free string leaves only decimal points. -/
theorem cleanChars_no_digit (l : List Char) (h : hasDigit l = false) :
    ∀ c ∈ cleanChars l, c = '.' := by
  intro c hc
  rw [cleanChars, List.mem_filter] at hc
  obtain ⟨hmem, hcond⟩ := hc
  rcases Bool.or_eq_true_iff.mp hcond with hd | hdot
  · exfalso
    have := List.any_eq_false.mp (by simpa [hasDigit] using h) c hmem
    exact this hd
  · exact eq_of_beq hdot

/-- Helper: the empty cleaned string is rejected by the float parse. -/
theorem parseCleaned_nil : parseCleaned [] = none := rfl

/-- C6: numeric extraction from a table cell never raises: a missing cell,
an empty or dash text, and a digit-free text all yield zero, and any text
whose digit and decimal-point characters form a decimal numeral yields that
numeral's value. -/
theorem c6_extract_number_fail_soft (text : String) :
    extract_number none = 0 ∧
    (text = ("") → extract_number (some text) = 0) ∧
    (text = ("-") → extract_number (some text) = 0) ∧
    (hasDigit text.data = false → extract_number (some text) = 0) ∧
    (∀ q, parseCleaned (cleanChars text.data) = some q →
      extract_number (some text) = q) := by
  refine ⟨rfl, ?_, ?_, ?_, ?_⟩
  · intro h
    subst h
    rfl
  · intro h
    subst h
    rfl
  · intro h
    simp only [extract_number]
    split
    · rfl
    · split
      · rfl
      · rw [parseCleaned_dots _ (cleanChars_no_digit _ h)]
  · intro q hq
    simp only [extract_number]
    split
    · exfalso
      rename_i hemp
      have hclean : cleanChars text.data = [] := by
        rcases Bool.or_eq_true_iff.mp hemp with he | hd
        · have : text = ("") := eq_of_beq he
          subst this
          rfl
        · have : text = ("-") := eq_of_beq hd
          subst this
          rfl
      rw [hclean, parseCleaned_nil] at hq
      cases hq
    · split
      · exfalso
        rename_i hemp
        have hclean : cleanChars text.data = [] := by
          simpa [List.isEmpty_iff] using hemp
        rw [hclean, parseCleaned_nil] at hq
        cases hq
      · rw [hq]

/-- C6 witness: a digit-free cell yields zero, and a cell reading 12.5
yields the value twelve and a half. -/
theorem c6_extract_number_fail_soft_witness :
    extract_number (some ("abc")) = 0 ∧
    extract_number (some ("12.5")) = 12.5 := by
  constructor
  · exact (c6_extract_number_fail_soft ("abc")).2.2.2.1 (by decide)
  · have h : parseCleaned (cleanChars ("12.5").data) =
        some (((12 : ℕ) : ℚ) + ((5 : ℕ) : ℚ) / 10 ^ (1 : ℕ)) := rfl
    have h2 : (((12 : ℕ) : ℚ) + ((5 : ℕ) : ℚ) / 10 ^ (1 : ℕ)) = 12.5 := by
      norm_num
    exact (c6_extract_number_fail_soft ("12.5")).2.2.2.2 _ (h.trans (by rw [h2]))

/-- C7: the derived completion percentage equals 100 * completions /
attempts when attempts is positive, and equals 0 when attempts is zero; the
division is guarded by the positivity test and never performed with a zero
divisor. -/
theorem c7_completion_pct_guarded (s : Stats) :
    (0 < statGet s ("attempts") →
      (calculate_efficiency_metrics s).completion_percentage =
        100 * statGet s ("completions") / statGet s ("attempts")) ∧
    (statGet s ("attempts") = 0 →
      (calculate_efficiency_metrics s).completion_percentage = 0) := by
  constructor
  · intro h
    show (if 0 < statGet s ("attempts") then
        statGet s ("completions") / statGet s ("attempts") * 100 else 0) =
      100 * statGet s ("completions") / statGet s ("attempts")
    rw [if_pos h]
    ring
  · intro h
    show (if 0 < statGet s ("attempts") then
        statGet s ("completions") / statGet s ("attempts") * 100 else 0) = 0
    rw [if_neg (by rw [h]; exact lt_irrefl 0)]

/-- C7 witness: for the Mahomes demo record (565 attempts, 362 completions)
the completion percentage is 100 * 362 / 565 = 7240 / 113. -/
theorem c7_completion_pct_guarded_witness :
    (calculate_efficiency_metrics mahomesStats).completion_percentage = 7240 / 113 := by
  have ha : statGet mahomesStats ("attempts") = 565 := rfl
  have hc : statGet mahomesStats ("completions") = 362 := rfl
  have h : (0 : ℚ) < statGet mahomesStats ("attempts") := by
    rw [ha]
    norm_num
  rw [(c7_completion_pct_guarded mahomesStats).1 h, ha, hc]
  norm_num

/-- Helper: folding the SQL MAX accumulator from a present value never
returns null. -/
theorem foldl_max_isSome (L : List ℤ) (m : ℤ) :
    ∃ r, L.foldl
      (fun acc t =>
        match acc with
        | none => some t
        | some m => some (max m t)) (some m) = some r := by
  induction L generalizing m with
  | nil => exact ⟨m, rfl⟩
  | cons t ts ih => exact ih (max m t)

/-- Helper: the SQL MAX of the last-updated column is null exactly on an
empty stats table. -/
theorem maxTimestamp_eq_none {rows : List ℤ} (h : maxTimestamp rows = none) :
    rows = [] := by
  cases rows with
  | nil => rfl
  | cons t ts =>
    exfalso
    obtain ⟨r, hr⟩ := foldl_max_isSome ts t
    rw [maxTimestamp, List.foldl_cons] at h
    rw [hr] at h
    cases h

/-- C9: needs_update returns true exactly when the store file does not
exist, or the stats table has no rows (newest last-updated timestamp is
null), or the newest last-updated timestamp is older than max_age_hours
relative to the current time; otherwise it returns false. -/
theorem c9_needs_update_iff (store : Option (List ℤ)) (now max_age_hours : ℤ) :
    needs_update store now max_age_hours = true ↔
      (store = none ∨ store = some [] ∨
        ∃ rows t, store = some rows ∧ maxTimestamp rows = some t ∧
          now - t > max_age_hours * 3600) := by
  cases store with
  | none => simp [needs_update]
  | some rows =>
    cases hm : maxTimestamp rows with
    | none =>
      have hrows : rows = [] := maxTimestamp_eq_none hm
      subst hrows
      simp [needs_update, maxTimestamp]
    | some t =>
      have hne : rows ≠ [] := by
        intro h
        subst h
        cases hm
      simp only [needs_update, hm]
      constructor
      · intro h
        exact Or.inr (Or.inr ⟨rows, t, rfl, hm, of_decide_eq_true h⟩)
      · intro h
        rcases h with h | h | ⟨rows', t', heq, hm', hgt⟩
        · cases h
        · exact absurd (Option.some.inj h) hne
        · have : rows' = rows := Option.some.inj heq.symm
          subst this
          rw [hm'] at hm
          have : t' = t := Option.some.inj hm
          subst this
          exact decide_eq_true hgt

/-- Helper: every value the float parse accepts is non-negative, since only
digit and decimal-point characters reach it. -/
theorem parseCleaned_nonneg {l : List Char} {q : ℚ}
    (h : parseCleaned l = some q) : 0 ≤ q := by
  unfold parseCleaned at h
  split at h
  · dsimp only at h
    split at h
    · cases h
    · split at h
      · cases h
      · have hq := Option.some.inj h
        rw [← hq]
        have h1 : (0 : ℚ) ≤ (digitsVal (l.takeWhile fun c => !(c == '.')) : ℚ) :=
          Nat.cast_nonneg _
        have h2 : (0 : ℚ) ≤
            (digitsVal ((l.dropWhile fun c => !(c == '.')).tail) : ℚ) /
              10 ^ ((l.dropWhile fun c => !(c == '.')).tail).length := by
          apply div_nonneg (Nat.cast_nonneg _)
          positivity
        exact add_nonneg h1 h2
  · split at h
    · cases h
    · have hq := Option.some.inj h
      rw [← hq]
      exact Nat.cast_nonneg _

/-- C10: numeric extraction always returns a non-negative value, because
the cleaning step keeps only digit and decimal-point characters and
discards any minus sign; in particular a cell containing -5 is parsed
as 5. -/
theorem c10_extract_number_nonneg :
    (∀ cell, 0 ≤ extract_number cell) ∧ extract_number (some ("-5")) = 5 := by
  constructor
  · intro cell
    cases cell with
    | none => exact le_refl 0
    | some text =>
      simp only [extract_number]
      split
      · exact le_refl 0
      · split
        · exact le_refl 0
        · cases hp : parseCleaned (cleanChars text.data) with
          | none => simp [hp]
          | some q =>
            simp only [hp]
            exact parseCleaned_nonneg hp
  · have h : extract_number (some ("-5")) = ((5 : ℕ) : ℚ) := rfl
    rw [h]
    norm_num

/-- C8: for every in-memory mapping, stat key and limit, the top-N ranking
is sorted in descending order of that stat's value and has length
min(limit, number of players). -/
theorem c8_top_n_sorted_length (qb_data : QBMap) (stat : String) (limit : ℕ) :
    (get_top_qbs qb_data stat limit).length = min limit qb_data.length ∧
    (get_top_qbs qb_data stat limit).Pairwise
      (fun a b => statGet b.2 stat ≤ statGet a.2 stat) := by
  unfold get_top_qbs
  split
  · rename_i h
    have hd : qb_data = [] := by simpa [List.isEmpty_iff] using h
    subst hd
    simp
  · constructor
    · rw [List.length_take, List.length_mergeSort]
    · have htrans : ∀ a b c : String × Stats,
          (decide (statGet b.2 stat ≤ statGet a.2 stat)) →
          (decide (statGet c.2 stat ≤ statGet b.2 stat)) →
          (decide (statGet c.2 stat ≤ statGet a.2 stat)) := by
        intro a b c h1 h2
        simp only [decide_eq_true_eq] at *
        exact le_trans h2 h1
      have htotal : ∀ a b : String × Stats,
          (decide (statGet b.2 stat ≤ statGet a.2 stat)) ||
          (decide (statGet a.2 stat ≤ statGet b.2 stat)) := by
        intro a b
        rcases le_total (statGet b.2 stat) (statGet a.2 stat) with h | h <;> simp [h]
      have hs : (qb_data.mergeSort fun a b =>
            decide (statGet b.2 stat ≤ statGet a.2 stat)).Pairwise
          (fun a b => (decide (statGet b.2 stat ≤ statGet a.2 stat)) = true) :=
        List.sorted_mergeSort htrans htotal qb_data
      have hs' := hs.imp fun h => of_decide_eq_true h
      exact hs'.sublist (List.take_sublist _ _)
